import Mathlib

/-!
Shallow embedding of `src/onewire.py` (COO-Utilities/onewire): the transport
session, the response framer inside `ONEWIRE.get_data`, the HTTP status check,
and the XML document decoder (`__device_data_handler`, `__sensor_data_handler`),
together with the `ONEWIREDATA` read-only views.

Byte buffers are modelled as `List Char` (the device speaks pure ASCII and the
code decodes with `.decode("ascii")`).  Python `float` values are modelled as
rationals; the builtin parsers `int()` / `float()` are modelled on the plain
decimal numerals the device emits (optional sign, digits, optional fractional
part, surrounding whitespace).  Python exceptions raised by the source are the
constructors of `PyErr`; `sys.exit(1)` is the distinguished outcome
`FramerResult.exited 1`.
-/

/-- Python exceptions that the source can raise: its own two exception classes
(`HttpResponseError`, `DeviceConnectionError`), the `IOError` it wraps failures
in, and the builtin exceptions produced by `int()`, `float()`, indexing and
attribute access on `None`. -/
inductive PyErr where
  | httpResponseError (code : Int)
  | deviceConnectionError
  | ioError
  | valueError (raw : String)
  | typeError
  | indexError
  | attributeError
deriving DecidableEq, Repr

/-- Substring test, modelling Python's `pat in s` on bytes/str: true when `pat`
occurs contiguously in `s` (the empty pattern occurs in every string). -/
def hasSub (pat : List Char) : List Char → Bool
  | [] => pat.isEmpty
  | c :: t => pat.isPrefixOf (c :: t) || hasSub pat t

/-- Split at the first occurrence of `sep` (assumed non-empty): returns the part
before the first occurrence and, when `sep` occurs, the remainder after it.
This is the building block for Python's `s.split(sep)[i]` for `i = 0, 1`. -/
def splitFirst (sep : List Char) : List Char → List Char × Option (List Char)
  | [] => ([], Option.none)
  | c :: t =>
    if sep.isPrefixOf (c :: t) then ([], some ((c :: t).drop sep.length))
    else
      let p := splitFirst sep t
      (c :: p.1, p.2)

/-- Python `s.split(sep)[1]`: the segment between the first and second
occurrences of `sep` (to the end when `sep` occurs once); `none` models the
`IndexError` raised when `sep` does not occur at all. -/
def pyIndex1 (sep s : List Char) : Option (List Char) :=
  match (splitFirst sep s).2 with
  | Option.none => Option.none
  | some rest => some (splitFirst sep rest).1

/-- Strip leading and trailing whitespace, as Python's `int()`/`float()` do
before parsing. -/
def trimWs (l : List Char) : List Char :=
  ((l.dropWhile Char.isWhitespace).reverse.dropWhile Char.isWhitespace).reverse

/-- Value of a non-empty all-digit string, `none` otherwise. -/
def digitsVal? (l : List Char) : Option Nat :=
  if l.isEmpty then Option.none
  else if l.all Char.isDigit then some (l.foldl (fun a c => a * 10 + (c.toNat - 48)) 0)
  else Option.none

/-- Value of a possibly empty all-digit string, `none` when a non-digit occurs. -/
def digitsOpt? (l : List Char) : Option Nat :=
  if l.all Char.isDigit then some (l.foldl (fun a c => a * 10 + (c.toNat - 48)) 0)
  else Option.none

/-- Python's builtin `int()` on the decimal numerals the device emits: optional
surrounding whitespace, optional sign, then a non-empty digit run.  `none`
models the `ValueError` raised on anything else. -/
def pyInt? (l : List Char) : Option Int :=
  match trimWs l with
  | '+' :: r => (digitsVal? r).map Int.ofNat
  | '-' :: r => (digitsVal? r).map (fun n => -(n : Int))
  | r => (digitsVal? r).map Int.ofNat

/-- Magnitude part of a Python `float()` literal: digits, optionally with a dot
and a fractional digit run (at least one digit overall). -/
def pyFloatMag? (t : List Char) : Option ℚ :=
  match splitFirst ['.'] t with
  | (a, Option.none) => (digitsVal? a).map (fun n => (n : ℚ))
  | (a, some b) =>
    if a.isEmpty && b.isEmpty then Option.none
    else
      match digitsOpt? a, digitsOpt? b with
      | some ia, some fb => some ((ia : ℚ) + (fb : ℚ) / ((10 : ℚ) ^ b.length))
      | _, _ => Option.none

/-- Python's builtin `float()` on the plain decimal numerals the device emits
(optional surrounding whitespace, optional sign, digits with an optional
fractional part).  `none` models the `ValueError` raised on anything else. -/
def pyFloat? (l : List Char) : Option ℚ :=
  match trimWs l with
  | '+' :: r => pyFloatMag? r
  | '-' :: r => (pyFloatMag? r).map Neg.neg
  | r => pyFloatMag? r

/-- Python `str(element.text)`: total, rendering `None` as the string "None". -/
def pyStr (t : Option String) : String :=
  match t with
  | Option.none => "None"
  | some s => s

/-- Coercion `int(element.text)`: `TypeError` on a missing text, `ValueError`
(carrying the raw text, as the Python message does) on a non-numeral. -/
def pyIntCoerce (t : Option String) : Except PyErr Int :=
  match t with
  | Option.none => .error PyErr.typeError
  | some s =>
    match pyInt? s.data with
    | Option.none => .error (PyErr.valueError s)
    | some v => .ok v

/-- Coercion `float(element.text)`: `TypeError` on a missing text, `ValueError`
(carrying the raw text) on a non-numeral. -/
def pyFloatCoerce (t : Option String) : Except PyErr ℚ :=
  match t with
  | Option.none => .error PyErr.typeError
  | some s =>
    match pyFloat? s.data with
    | Option.none => .error (PyErr.valueError s)
    | some v => .ok v

/-- First whitespace-delimited token, modelling `text.split(" ")[0]` in the
`PrimaryValue` branches (index 0 always exists in Python). -/
def firstToken (s : String) : String :=
  String.mk (splitFirst [' '] s.data).1

/-- Framing terminator `b'</Devices-Detail-Response>'` tested by the read loop
in `get_data` (line 238). -/
def terminatorSeq : List Char := "</Devices-Detail-Response>".data

/-- CRLF separator used by `response.decode("ascii").split("\r\n")[0]`. -/
def crlf : List Char := "\r\n".data

/-- Document-start marker used by `response.split("?>\r\n")[1]` (line 244). -/
def xmlMark : List Char := "?>\r\n".data

/-- Accumulation loop of `get_data` (lines 238-239): while the terminator is not
in the buffer, append the next `recv` result and re-test the whole buffer.  The
chunk list is the trace of successive `recv(1024)` results; `none` means the
trace was exhausted with the loop still running (the loop does not exit). -/
def frameLoop : List Char → List (List Char) → Option (List Char)
  | acc, [] => if hasSub terminatorSeq acc then some acc else Option.none
  | acc, c :: cs =>
    if hasSub terminatorSeq acc then some acc else frameLoop (acc ++ c) cs

/-- Concatenation of a chunk trace. -/
def catChunks : List (List Char) → List Char
  | [] => []
  | c :: cs => c ++ catChunks cs

/-- The private status check `ONEWIRE.__http_response_handler` (lines 247-252):
`response_code = int(response.split(' ')[1])`; a code other than 200 raises
`HttpResponseError` carrying the code. -/
def http_response_handler (resp : List Char) : Except PyErr Int :=
  match pyIndex1 [' '] resp with
  | Option.none => .error PyErr.indexError
  | some tok =>
    match pyInt? tok with
    | Option.none => .error (PyErr.valueError (String.mk tok))
    | some code => if code = 200 then .ok code else .error (PyErr.httpResponseError code)

/-- Outcome of the request/framing part of `get_data`: `exited n` models the
caught `HttpResponseError` path (`print(err); sys.exit(1)`, lines 231-233),
`raised e` an uncaught Python exception, `payload xml` the document slice
handed to `__xml_data_handler` (line 245). -/
inductive FramerResult where
  | exited (n : Nat)
  | raised (e : PyErr)
  | payload (xml : List Char)
deriving DecidableEq, Repr

/-- `ONEWIRE.get_data` (lines 220-245) from the point where the request has been
sent on a connected session: `firstReply` is the first `recv(25000)` result and
`chunks` the trace of subsequent `recv(1024)` results.  The status line is the
first CRLF-separated line of the first reply; a non-200 code is caught and
turned into `sys.exit(1)`; otherwise the loop accumulates until the terminator
occurs, and the buffer is sliced with `split("?>\r\n")[1]` into the document
payload (which the code then passes to the XML decoder, modelled separately).
`none` means the read trace was exhausted with the loop still running. -/
def get_data (firstReply : List Char) (chunks : List (List Char)) : Option FramerResult :=
  let httpLine := (splitFirst crlf firstReply).1
  match http_response_handler httpLine with
  | .error (PyErr.httpResponseError _) => some (FramerResult.exited 1)
  | .error e => some (FramerResult.raised e)
  | .ok _ =>
    match frameLoop firstReply chunks with
    | Option.none => Option.none
    | some buf =>
      match pyIndex1 xmlMark buf with
      | Option.none => some (FramerResult.raised PyErr.indexError)
      | some xml => some (FramerResult.payload xml)

/-- Dataclass `EDS0065DATA` (lines 14-29): every field defaults to `None`. -/
structure EDS0065DATA where
  rom_id : Option String := Option.none
  device_type : Option String := Option.none
  health : Option Int := Option.none
  channel : Option Int := Option.none
  raw_data : Option String := Option.none
  relative_humidity : Option ℚ := Option.none
  temperature : Option ℚ := Option.none
  humidity : Option ℚ := Option.none
  dew_point : Option ℚ := Option.none
  humidex : Option ℚ := Option.none
  heat_index : Option ℚ := Option.none
  version : Option ℚ := Option.none
deriving DecidableEq

/-- Dataclass `EDS0068DATA` (lines 31-49): the Family A fields plus barometric
pressure (mb and inHg) and illuminance. -/
structure EDS0068DATA where
  rom_id : Option String := Option.none
  device_type : Option String := Option.none
  health : Option Int := Option.none
  channel : Option Int := Option.none
  raw_data : Option String := Option.none
  relative_humidity : Option ℚ := Option.none
  temperature : Option ℚ := Option.none
  humidity : Option ℚ := Option.none
  dew_point : Option ℚ := Option.none
  humidex : Option ℚ := Option.none
  heat_index : Option ℚ := Option.none
  pressure_mb : Option ℚ := Option.none
  pressure_hg : Option ℚ := Option.none
  illuminance : Option Int := Option.none
  version : Option ℚ := Option.none
deriving DecidableEq

/-- Dataclass `ONEWIREDATA` (lines 51-73): bus-level counters plus the two
ordered per-family sensor sequences. -/
structure ONEWIREDATA where
  poll_count : Option Int := Option.none
  total_devices : Option Int := Option.none
  loop_time : Option ℚ := Option.none
  ch1_connected : Option Int := Option.none
  ch2_connected : Option Int := Option.none
  ch3_connected : Option Int := Option.none
  ch1_error : Option Int := Option.none
  ch2_error : Option Int := Option.none
  ch3_error : Option Int := Option.none
  ch1_voltage : Option ℚ := Option.none
  ch2_voltage : Option ℚ := Option.none
  ch3_voltage : Option ℚ := Option.none
  voltage_power : Option ℚ := Option.none
  device_name : Option String := Option.none
  hostname : Option String := Option.none
  mac_address : Option String := Option.none
  datetime : Option String := Option.none
  eds0065_data : List EDS0065DATA := []
  eds0068_data : List EDS0068DATA := []
deriving DecidableEq

/-- Value stored in the dictionaries produced by `dataclasses.asdict`: a Python
string, int, float or `None`. -/
inductive PyVal where
  | vNone
  | vStr (s : String)
  | vInt (n : Int)
  | vFloat (q : ℚ)
deriving DecidableEq

/-- Lift an optional string field into its `asdict` value. -/
def pvStr (o : Option String) : PyVal :=
  match o with
  | Option.none => PyVal.vNone
  | some s => PyVal.vStr s

/-- Lift an optional int field into its `asdict` value. -/
def pvInt (o : Option Int) : PyVal :=
  match o with
  | Option.none => PyVal.vNone
  | some n => PyVal.vInt n

/-- Lift an optional float field into its `asdict` value. -/
def pvFloat (o : Option ℚ) : PyVal :=
  match o with
  | Option.none => PyVal.vNone
  | some q => PyVal.vFloat q

/-- `dataclasses.asdict` applied to an `EDS0065DATA` record. -/
def asdict65 (s : EDS0065DATA) : List (String × PyVal) :=
  [("rom_id", pvStr s.rom_id), ("device_type", pvStr s.device_type),
   ("health", pvInt s.health), ("channel", pvInt s.channel),
   ("raw_data", pvStr s.raw_data), ("relative_humidity", pvFloat s.relative_humidity),
   ("temperature", pvFloat s.temperature), ("humidity", pvFloat s.humidity),
   ("dew_point", pvFloat s.dew_point), ("humidex", pvFloat s.humidex),
   ("heat_index", pvFloat s.heat_index), ("version", pvFloat s.version)]

/-- `dataclasses.asdict` applied to an `EDS0068DATA` record. -/
def asdict68 (s : EDS0068DATA) : List (String × PyVal) :=
  [("rom_id", pvStr s.rom_id), ("device_type", pvStr s.device_type),
   ("health", pvInt s.health), ("channel", pvInt s.channel),
   ("raw_data", pvStr s.raw_data), ("relative_humidity", pvFloat s.relative_humidity),
   ("temperature", pvFloat s.temperature), ("humidity", pvFloat s.humidity),
   ("dew_point", pvFloat s.dew_point), ("humidex", pvFloat s.humidex),
   ("heat_index", pvFloat s.heat_index), ("pressure_mb", pvFloat s.pressure_mb),
   ("pressure_hg", pvFloat s.pressure_hg), ("illuminance", pvInt s.illuminance),
   ("version", pvFloat s.version)]

/-- `ONEWIREDATA.read_sensors` (lines 75-83): `asdict` of every Family A record
followed by `asdict` of every Family B record. -/
def read_sensors (d : ONEWIREDATA) : List (List (String × PyVal)) :=
  d.eds0065_data.map asdict65 ++ d.eds0068_data.map asdict68

/-- One `{"rom_id": ..., "temperature": ...}` entry built by `read_temperature`. -/
structure TempEntry where
  rom_id : Option String
  temperature : ℚ
deriving DecidableEq

/-- One `{"rom_id": ..., "humidity": ...}` entry built by `read_humidity`. -/
structure HumEntry where
  rom_id : Option String
  humidity : ℚ
deriving DecidableEq

/-- Family A loop of `ONEWIREDATA.read_temperature` (lines 88-91): append an
entry exactly when the record's temperature is not `None`. -/
def temps65 : List EDS0065DATA → List TempEntry
  | [] => []
  | s :: rest =>
    match s.temperature with
    | some t => TempEntry.mk s.rom_id t :: temps65 rest
    | Option.none => temps65 rest

/-- Family B loop of `ONEWIREDATA.read_temperature` (lines 92-95). -/
def temps68 : List EDS0068DATA → List TempEntry
  | [] => []
  | s :: rest =>
    match s.temperature with
    | some t => TempEntry.mk s.rom_id t :: temps68 rest
    | Option.none => temps68 rest

/-- `ONEWIREDATA.read_temperature` (lines 85-97). -/
def read_temperature (d : ONEWIREDATA) : List TempEntry :=
  temps65 d.eds0065_data ++ temps68 d.eds0068_data

/-- Family A loop of `ONEWIREDATA.read_humidity` (lines 102-105). -/
def hums65 : List EDS0065DATA → List HumEntry
  | [] => []
  | s :: rest =>
    match s.humidity with
    | some h => HumEntry.mk s.rom_id h :: hums65 rest
    | Option.none => hums65 rest

/-- Family B loop of `ONEWIREDATA.read_humidity` (lines 106-109). -/
def hums68 : List EDS0068DATA → List HumEntry
  | [] => []
  | s :: rest =>
    match s.humidity with
    | some h => HumEntry.mk s.rom_id h :: hums68 rest
    | Option.none => hums68 rest

/-- `ONEWIREDATA.read_humidity` (lines 99-111). -/
def read_humidity (d : ONEWIREDATA) : List HumEntry :=
  hums65 d.eds0065_data ++ hums68 d.eds0068_data

/-- Allowed items of `ONEWIRE.get_atomic_value` (line 209). -/
def allowedItems : List String := ["temperature", "humidity", "dew_point"]

/-- `ONEWIRE.get_atomic_value` (lines 207-218), with `get_data` abstracted as
the `ONEWIREDATA` it would leave in `self.ow_data`.  The second component
records whether the device was polled (`self.get_data()` reached).  When the
item is not allowed the method logs an error and returns `None` without
polling; otherwise it polls and collects `sensor[item]` from every dictionary
of `read_sensors` (the inner `Option` models the dictionary lookup). -/
def get_atomic_value (item : String) (polled : ONEWIREDATA) :
    Option (List (Option PyVal)) × Bool :=
  if item ∈ allowedItems then
    (some ((read_sensors polled).map (fun sd => List.lookup item sd)), true)
  else (Option.none, false)

/-- An `xml.etree.ElementTree` element: tag, optional text, child elements.
`ET.fromstring` (the stdlib parser) is treated as external; the decoder is
modelled on its output tree. -/
inductive Elem where
  | mk (tag : String) (text : Option String) (children : List Elem)

/-- Tag of an element. -/
def Elem.tag : Elem → String
  | Elem.mk t _ _ => t

/-- Text of an element (`None` when the element has no text). -/
def Elem.text : Elem → Option String
  | Elem.mk _ x _ => x

/-- Immediate children of an element. -/
def Elem.children : Elem → List Elem
  | Elem.mk _ _ c => c

/-- The closing-brace character, written by code point to keep braces out of
string literals. -/
def rbrace : Char := Char.ofNat 125

/-- Namespace strip applied to one tag (lines 257-259):
`elem.tag.split("}")[1]`; `none` models the `IndexError` raised when the tag
carries no namespace delimiter. -/
def stripTag (t : String) : Option String :=
  (pyIndex1 [rbrace] t.data).map String.mk

mutual

/-- Namespace strip applied over the whole tree (the in-place mutation loop of
`__xml_data_handler`, lines 257-259), all-or-nothing. -/
def stripElem : Elem → Option Elem
  | Elem.mk t x cs =>
    match stripTag t, stripList cs with
    | some t2, some cs2 => some (Elem.mk t2 x cs2)
    | _, _ => Option.none

/-- Namespace strip over a child list. -/
def stripList : List Elem → Option (List Elem)
  | [] => some []
  | e :: es =>
    match stripElem e, stripList es with
    | some e2, some es2 => some (e2 :: es2)
    | _, _ => Option.none

end

mutual

/-- Document-order traversal `root.iter()`: the element followed by the
preorder of its children. -/
def preorder : Elem → List Elem
  | Elem.mk t x cs => Elem.mk t x cs :: preorderList cs

/-- Preorder traversal of a sibling list. -/
def preorderList : List Elem → List Elem
  | [] => []
  | e :: es => preorder e ++ preorderList es

end

/-- One iteration of the Family A child loop in `ONEWIRE.__sensor_data_handler`
(lines 312-339): dispatch on the child tag, coerce, and assign into the record;
unrecognized tags fall through unchanged. -/
def sensorStep65 (r : EDS0065DATA) (c : Elem) : Except PyErr EDS0065DATA :=
  if c.tag = "ROMId" then .ok {r with rom_id := some (pyStr c.text)}
  else if c.tag = "Name" then .ok {r with device_type := some (pyStr c.text)}
  else if c.tag = "Health" then do
    let v ← pyIntCoerce c.text
    pure {r with health := some v}
  else if c.tag = "Channel" then do
    let v ← pyIntCoerce c.text
    pure {r with channel := some v}
  else if c.tag = "RawData" then .ok {r with raw_data := some (pyStr c.text)}
  else if c.tag = "PrimaryValue" then
    match c.text with
    | Option.none => .error PyErr.attributeError
    | some s =>
      match pyFloat? (firstToken s).data with
      | Option.none => .error (PyErr.valueError (firstToken s))
      | some q => .ok {r with relative_humidity := some q}
  else if c.tag = "Temperature" then do
    let v ← pyFloatCoerce c.text
    pure {r with temperature := some v}
  else if c.tag = "Humidity" then do
    let v ← pyFloatCoerce c.text
    pure {r with humidity := some v}
  else if c.tag = "DewPoint" then do
    let v ← pyFloatCoerce c.text
    pure {r with dew_point := some v}
  else if c.tag = "Humidex" then do
    let v ← pyFloatCoerce c.text
    pure {r with humidex := some v}
  else if c.tag = "HeatIndex" then do
    let v ← pyFloatCoerce c.text
    pure {r with heat_index := some v}
  else if c.tag = "Version" then do
    let v ← pyFloatCoerce c.text
    pure {r with version := some v}
  else .ok r

/-- The Family A child loop (`for sensor in element`, line 314), aborting at the
first raised coercion error. -/
def sensorFold65 (r : EDS0065DATA) : List Elem → Except PyErr EDS0065DATA
  | [] => .ok r
  | c :: cs => do
    let r2 ← sensorStep65 r c
    sensorFold65 r2 cs

/-- One iteration of the Family B child loop in `ONEWIRE.__sensor_data_handler`
(lines 342-376). -/
def sensorStep68 (r : EDS0068DATA) (c : Elem) : Except PyErr EDS0068DATA :=
  if c.tag = "ROMId" then .ok {r with rom_id := some (pyStr c.text)}
  else if c.tag = "Name" then .ok {r with device_type := some (pyStr c.text)}
  else if c.tag = "Health" then do
    let v ← pyIntCoerce c.text
    pure {r with health := some v}
  else if c.tag = "Channel" then do
    let v ← pyIntCoerce c.text
    pure {r with channel := some v}
  else if c.tag = "RawData" then .ok {r with raw_data := some (pyStr c.text)}
  else if c.tag = "PrimaryValue" then
    match c.text with
    | Option.none => .error PyErr.attributeError
    | some s =>
      match pyFloat? (firstToken s).data with
      | Option.none => .error (PyErr.valueError (firstToken s))
      | some q => .ok {r with relative_humidity := some q}
  else if c.tag = "Temperature" then do
    let v ← pyFloatCoerce c.text
    pure {r with temperature := some v}
  else if c.tag = "Humidity" then do
    let v ← pyFloatCoerce c.text
    pure {r with humidity := some v}
  else if c.tag = "DewPoint" then do
    let v ← pyFloatCoerce c.text
    pure {r with dew_point := some v}
  else if c.tag = "Humidex" then do
    let v ← pyFloatCoerce c.text
    pure {r with humidex := some v}
  else if c.tag = "HeatIndex" then do
    let v ← pyFloatCoerce c.text
    pure {r with heat_index := some v}
  else if c.tag = "BarometricPressureMb" then do
    let v ← pyFloatCoerce c.text
    pure {r with pressure_mb := some v}
  else if c.tag = "BarometricPressureHg" then do
    let v ← pyFloatCoerce c.text
    pure {r with pressure_hg := some v}
  else if c.tag = "Light" then do
    let v ← pyIntCoerce c.text
    pure {r with illuminance := some v}
  else if c.tag = "Version" then do
    let v ← pyFloatCoerce c.text
    pure {r with version := some v}
  else .ok r

/-- The Family B child loop (`for sensor in element`, line 344). -/
def sensorFold68 (r : EDS0068DATA) : List Elem → Except PyErr EDS0068DATA
  | [] => .ok r
  | c :: cs => do
    let r2 ← sensorStep68 r c
    sensorFold68 r2 cs

/-- `ONEWIRE.__device_data_handler` (lines 269-308): dispatch on the (already
namespace-stripped) tag, coercing and assigning the matching `ONEWIREDATA`
field; the sensor-container tags run the family child loop over the immediate
children and append the finished record; any other tag falls through with the
state unchanged. -/
def device_data_handler (st : ONEWIREDATA) (e : Elem) : Except PyErr ONEWIREDATA :=
  if e.tag = "PollCount" then do
    let v ← pyIntCoerce e.text
    pure {st with poll_count := some v}
  else if e.tag = "DevicesConnected" then do
    let v ← pyIntCoerce e.text
    pure {st with total_devices := some v}
  else if e.tag = "LoopTime" then do
    let v ← pyFloatCoerce e.text
    pure {st with loop_time := some v}
  else if e.tag = "DevicesConnectedChannel1" then do
    let v ← pyIntCoerce e.text
    pure {st with ch1_connected := some v}
  else if e.tag = "DevicesConnectedChannel2" then do
    let v ← pyIntCoerce e.text
    pure {st with ch2_connected := some v}
  else if e.tag = "DevicesConnectedChannel3" then do
    let v ← pyIntCoerce e.text
    pure {st with ch3_connected := some v}
  else if e.tag = "DataErrorsChannel1" then do
    let v ← pyIntCoerce e.text
    pure {st with ch1_error := some v}
  else if e.tag = "DataErrorsChannel2" then do
    let v ← pyIntCoerce e.text
    pure {st with ch2_error := some v}
  else if e.tag = "DataErrorsChannel3" then do
    let v ← pyIntCoerce e.text
    pure {st with ch3_error := some v}
  else if e.tag = "VoltageChannel1" then do
    let v ← pyFloatCoerce e.text
    pure {st with ch1_voltage := some v}
  else if e.tag = "VoltageChannel2" then do
    let v ← pyFloatCoerce e.text
    pure {st with ch2_voltage := some v}
  else if e.tag = "VoltageChannel3" then do
    let v ← pyFloatCoerce e.text
    pure {st with ch3_voltage := some v}
  else if e.tag = "VoltagePower" then do
    let v ← pyFloatCoerce e.text
    pure {st with voltage_power := some v}
  else if e.tag = "DeviceName" then .ok {st with device_name := some (pyStr e.text)}
  else if e.tag = "HostName" then .ok {st with hostname := some (pyStr e.text)}
  else if e.tag = "MACAddress" then .ok {st with mac_address := some (pyStr e.text)}
  else if e.tag = "DateTime" then .ok {st with datetime := some (pyStr e.text)}
  else if e.tag = "owd_EDS0065" then do
    let r ← sensorFold65 {} e.children
    pure {st with eds0065_data := st.eds0065_data ++ [r]}
  else if e.tag = "owd_EDS0068" then do
    let r ← sensorFold68 {} e.children
    pure {st with eds0068_data := st.eds0068_data ++ [r]}
  else .ok st

/-- The dispatch loop of `__xml_data_handler` (lines 266-267) over the
document-order element sequence, threading `self.ow_data`.  Because the Python
code mutates `self.ow_data` in place and a raised exception aborts the loop,
the result carries both the state reached so far (what `self.ow_data` holds
afterwards) and the exception, if any. -/
def runHandlers : ONEWIREDATA → List Elem → ONEWIREDATA × Option PyErr
  | st, [] => (st, Option.none)
  | st, e :: es =>
    match device_data_handler st e with
    | .ok st2 => runHandlers st2 es
    | .error err => (st, some err)

/-- `ONEWIRE.__xml_data_handler` (lines 254-267) on the parsed tree: strip every
namespace prefix, then dispatch every element in document order, starting from
the fresh `ONEWIREDATA` that `get_data` assigned at line 236. -/
def xml_data_handler (root : Elem) (st : ONEWIREDATA) : ONEWIREDATA × Option PyErr :=
  match stripElem root with
  | Option.none => (st, some PyErr.indexError)
  | some r => runHandlers st (preorder r)

/-- Recognized tags of `__device_data_handler` (the branch labels of lines
271-307). -/
def deviceTags : List String :=
  ["PollCount", "DevicesConnected", "LoopTime",
   "DevicesConnectedChannel1", "DevicesConnectedChannel2", "DevicesConnectedChannel3",
   "DataErrorsChannel1", "DataErrorsChannel2", "DataErrorsChannel3",
   "VoltageChannel1", "VoltageChannel2", "VoltageChannel3", "VoltagePower",
   "DeviceName", "HostName", "MACAddress", "DateTime",
   "owd_EDS0065", "owd_EDS0068"]

/-- Recognized child tags of `__sensor_data_handler` across both families (the
branch labels of lines 315-338 and 346-375). -/
def sensorTags : List String :=
  ["ROMId", "Name", "Health", "Channel", "RawData", "PrimaryValue",
   "Temperature", "Humidity", "DewPoint", "Humidex", "HeatIndex",
   "BarometricPressureMb", "BarometricPressureHg", "Light", "Version"]

/-- Connection-level state of an `ONEWIRE` object: the connected flag kept by
the `HardwareSensorBase` base class, the stored host/port, and whether a socket
object is held in `self.sock`. -/
structure Session where
  connected : Bool := false
  host : Option String := Option.none
  port : Option Int := Option.none
  hasSock : Bool := false
deriving DecidableEq

/-- Outcome of the OS-level `socket.connect` call: success, or a
`ConnectionRefusedError` / `OSError` (closed or unreachable port). -/
inductive NetOutcome where
  | success
  | refused
deriving DecidableEq

/-- Modelled from the spec: `validate_connection_params` is provided by the
external `HardwareSensorBase` class, which is not under src/.  The spec says
`connect` "validates that host is non-empty and port is in the 1-65535
range". -/
def validate_connection_params (host : String) (port : Int) : Bool :=
  !(host == "") && decide (1 ≤ port) && decide (port ≤ 65535)

/-- `ONEWIRE.connect` (lines 130-151): on valid parameters and con_type "tcp",
store host/port, create the socket, and attempt the OS connect; on refusal
raise `DeviceConnectionError` leaving the connected flag untouched (the
`_set_connected(True)` call is never reached); on an invalid con_type or
invalid parameters, report an error and set the flag to false without raising.
The first component is the exception raised, if any; the second is the object
state afterwards. -/
def connect (s : Session) (host : String) (port : Int) (conType : String)
    (net : NetOutcome) : Option PyErr × Session :=
  if validate_connection_params host port then
    if conType == "tcp" then
      let s1 : Session := {s with host := some host, port := some port, hasSock := true}
      match net with
      | NetOutcome.success => (Option.none, {s1 with connected := true})
      | NetOutcome.refused => (some PyErr.deviceConnectionError, s1)
    else (Option.none, {s with connected := false})
  else (Option.none, {s with connected := false})

/-- `ONEWIRE.disconnect` (lines 153-168): on an already-disconnected session,
report a warning (third component `true`) and return with the state unchanged;
otherwise close the socket and clear the flag, wrapping a close failure as
`IOError` (leaving the mid-close state: socket still held, flag still set). -/
def disconnect (s : Session) (closeFails : Bool) : Option PyErr × Session × Bool :=
  if !s.connected then (Option.none, s, true)
  else if closeFails then (some PyErr.ioError, s, false)
  else (Option.none, {s with hasSock := false, connected := false}, false)

/-- `ONEWIRE._send_command` (lines 170-188): while disconnected, report an error
and return `False` (no exception); while connected, `sendall` either writes the
whole buffer (return `True`) or raises, which the method wraps as `IOError`.
`sendFails` is the outcome of the underlying `sendall` call. -/
def send_command (connected : Bool) (sendFails : Bool) : Except PyErr Bool :=
  if !connected then .ok false
  else if sendFails then .error PyErr.ioError
  else .ok true

/-- Helper: the accumulation loop consumes every chunk and returns the whole
response whenever the terminator is present in the full response but in no
reachable proper prefix of the delivered stream. -/
theorem frameLoop_consumes_all (chunks : List (List Char)) (init : List Char)
    (hfull : hasSub terminatorSeq (init ++ catChunks chunks) = true)
    (hpre : ∀ i, i < chunks.length →
      hasSub terminatorSeq (init ++ catChunks (chunks.take i)) = false) :
    frameLoop init chunks = some (init ++ catChunks chunks) := by
  induction chunks generalizing init with
  | nil =>
    simp only [catChunks, List.append_nil] at hfull ⊢
    simp [frameLoop, hfull]
  | cons c cs ih =>
    have h0 : hasSub terminatorSeq init = false := by
      have := hpre 0 (by simp)
      simpa [catChunks] using this
    have hfull2 : hasSub terminatorSeq ((init ++ c) ++ catChunks cs) = true := by
      simpa [catChunks, List.append_assoc] using hfull
    have hpre2 : ∀ i, i < cs.length →
        hasSub terminatorSeq ((init ++ c) ++ catChunks (cs.take i)) = false := by
      intro i hi
      have := hpre (i + 1) (by simpa using Nat.succ_lt_succ hi)
      simpa [catChunks, List.append_assoc] using this
    have := ih (init ++ c) hfull2 hpre2
    simp only [frameLoop, h0, Bool.false_eq_true, if_false]
    simpa [catChunks, List.append_assoc] using this

/-- C1 (amended).  When the first line of the first reply carries a numeric
status code other than 200, `get_data` raises `HttpResponseError` inside the
status handler, catches it itself, prints it and calls `sys.exit(1)`: the
result is process termination with exit code 1, independent of any further
chunks (so the body is never read) and no document payload is ever produced. -/
theorem c1_theorem (resp : List Char) (chunks : List (List Char)) (tok : List Char)
    (code : Int)
    (h1 : pyIndex1 [' '] (splitFirst crlf resp).1 = some tok)
    (h2 : pyInt? tok = some code) (h3 : code ≠ 200) :
    get_data resp chunks = some (FramerResult.exited 1) := by
  simp [get_data, http_response_handler, h1, h2, h3]

/-- Witness for C1 at the spec's own example status line, with pending chunks
that are provably never consumed. -/
theorem c1_witness :
    get_data ("HTTP/1.1 404 Not Found\r\nbody").data [("more").data] =
      some (FramerResult.exited 1) :=
  c1_theorem _ _ ("404").data 404 (by decide) (by decide) (by decide)

/-- Counterexample to C1 as stated: on a 404 status line the poll does not
surface an error to the caller; it terminates the process (`sys.exit(1)`),
which in this embedding is the outcome `exited 1`, distinct from every raised
exception and in particular from a raised `HttpResponseError`. -/
theorem c1_counterexample :
    get_data ("HTTP/1.1 404 Not Found\r\nbody").data [] = some (FramerResult.exited 1) ∧
    FramerResult.exited 1 ≠ FramerResult.raised (PyErr.httpResponseError 404) := by
  exact ⟨by decide, by decide⟩

/-- C2.  The framing loop never terminates after EOF: a zero-length read leaves
the buffer unchanged, so when the terminator is absent from the accumulated
buffer, no number of further empty reads ever makes the loop condition false —
the loop runs forever instead of failing (no `TruncatedResponseError` exists in
the code). -/
theorem c2_theorem (acc : List Char) (n : Nat)
    (h : hasSub terminatorSeq acc = false) :
    frameLoop acc (List.replicate n []) = Option.none := by
  induction n with
  | zero => simp [frameLoop, h]
  | succ k ih => simp [List.replicate, frameLoop, h, ih]

/-- Witness for C2: a truncated response followed by four EOF reads leaves the
loop still running. -/
theorem c2_witness :
    frameLoop ("HTTP/1.1 200 OK\r\n\r\n<?xml v=1?>\r\n<PollCount>7</PollCount>").data
      (List.replicate 4 []) = Option.none :=
  c2_theorem _ 4 (by decide)

/-- C3 (amended).  The framer finds the terminator even when it straddles chunk
boundaries, because the whole accumulated buffer is re-scanned after each read:
whenever the delivered stream contains the terminator but no reachable proper
prefix of it does, the loop consumes every chunk and the accumulated buffer —
and hence the sliced payload — is identical to single-chunk delivery. -/
theorem c3_theorem (init : List Char) (chunks : List (List Char))
    (hfull : hasSub terminatorSeq (init ++ catChunks chunks) = true)
    (hpre : ∀ i, i < chunks.length →
      hasSub terminatorSeq (init ++ catChunks (chunks.take i)) = false) :
    frameLoop init chunks = some (init ++ catChunks chunks) ∧
    frameLoop init chunks = frameLoop (init ++ catChunks chunks) [] := by
  have h1 := frameLoop_consumes_all chunks init hfull hpre
  refine ⟨h1, ?_⟩
  rw [h1]
  simp [frameLoop, hfull]

/-- Witness for C3 with the terminator straddling the two delivered chunks. -/
theorem c3_witness :
    frameLoop ("HTTP/1.1 200 OK\r\n\r\n<?xml v=1?>\r\nX</Devices-Det").data
        [("ail-Resp").data, ("onse>").data] =
      some (("HTTP/1.1 200 OK\r\n\r\n<?xml v=1?>\r\nX</Devices-Det").data ++
        catChunks [("ail-Resp").data, ("onse>").data]) ∧
    frameLoop ("HTTP/1.1 200 OK\r\n\r\n<?xml v=1?>\r\nX</Devices-Det").data
        [("ail-Resp").data, ("onse>").data] =
      frameLoop (("HTTP/1.1 200 OK\r\n\r\n<?xml v=1?>\r\nX</Devices-Det").data ++
        catChunks [("ail-Resp").data, ("onse>").data]) [] :=
  c3_theorem _ _ (by decide) (by decide)

/-- Counterexample to C3 as stated: a well-formed response ending in the
terminator plus the wire format's trailing CRLF, split so that the CRLF arrives
as its own non-empty chunk, yields a different sliced payload than single-chunk
delivery — the loop stops as soon as the terminator is in the buffer and never
reads the trailing chunk. -/
theorem c3_counterexample :
    get_data ("HTTP/1.1 200 OK\r\n\r\n<?xml v=1?>\r\nX</Devices-Detail-Response>").data
      [("\r\n").data] =
      some (FramerResult.payload ("X</Devices-Detail-Response>").data) ∧
    get_data (("HTTP/1.1 200 OK\r\n\r\n<?xml v=1?>\r\nX</Devices-Detail-Response>").data ++
        ("\r\n").data) [] =
      some (FramerResult.payload ("X</Devices-Detail-Response>\r\n").data) ∧
    FramerResult.payload ("X</Devices-Detail-Response>").data ≠
      FramerResult.payload ("X</Devices-Detail-Response>\r\n").data := by
  exact ⟨by decide, by decide, by decide⟩

/-- C4 (amended).  A coercion failure aborts the decode at the first offending
element with an uncaught `ValueError` carrying the raw text (there is no
dedicated `DecodeError`, and the error does not name the tag), and the decode
is not all-or-nothing: every element before the failing one has already been
applied to `self.ow_data` — which replaced the previous reading before decoding
began — so the partially populated record is what the caller observes. -/
theorem c4_theorem (st st2 : ONEWIREDATA) (pre post : List Elem) (e : Elem)
    (err : PyErr)
    (h1 : runHandlers st pre = (st2, Option.none))
    (h2 : device_data_handler st2 e = .error err) :
    runHandlers st (pre ++ e :: post) = (st2, some err) := by
  induction pre generalizing st with
  | nil =>
    simp only [runHandlers, Prod.mk.injEq] at h1
    rw [List.nil_append, runHandlers, h1.1, h2]
  | cons a l ih =>
    rw [runHandlers] at h1
    rw [List.cons_append, runHandlers]
    cases hd : device_data_handler st a with
    | error er => rw [hd] at h1; simp at h1
    | ok st1 => rw [hd] at h1; exact ih st1 h1

/-- Witness for C4: a document whose `PollCount` decodes and whose `LoopTime`
text is non-numeric aborts with `ValueError "x"`, leaving the poll count
already assigned. -/
theorem c4_witness :
    runHandlers {} ([Elem.mk "PollCount" (some "5") []] ++
        Elem.mk "LoopTime" (some "x") [] :: []) =
      ({poll_count := some 5}, some (PyErr.valueError "x")) :=
  c4_theorem {} {poll_count := some 5} [Elem.mk "PollCount" (some "5") []] []
    (Elem.mk "LoopTime" (some "x") []) (PyErr.valueError "x") (by rfl) (by rfl)

/-- Counterexample to C4 as stated: after the failing decode the observable
reading state is a partially populated record (`poll_count` already set), not
the untouched previous state, and the raised error is a plain `ValueError`
carrying only the raw text, not a `DecodeError` naming the offending tag. -/
theorem c4_counterexample :
    runHandlers {} [Elem.mk "PollCount" (some "5") [], Elem.mk "LoopTime" (some "x") []] =
      ({poll_count := some 5}, some (PyErr.valueError "x")) ∧
    ({poll_count := some 5} : ONEWIREDATA) ≠ {} := by
  exact ⟨by rfl, by decide⟩

/-- C5.  A `PrimaryValue` text of "42.5 %RH" assigns `relative_humidity := 42.5`
in both sensor families (only the first whitespace-delimited token is parsed),
and any `PrimaryValue` text whose leading token is not numeric makes the decode
fail with the coercion error (a raised `ValueError` carrying that token — the
failure the spec's taxonomy calls `DecodeError`). -/
theorem c5_theorem (r65 : EDS0065DATA) (r68 : EDS0068DATA) :
    sensorStep65 r65 (Elem.mk "PrimaryValue" (some "42.5 %RH") []) =
      .ok {r65 with relative_humidity := some ((85 : ℚ) / 2)} ∧
    sensorStep68 r68 (Elem.mk "PrimaryValue" (some "42.5 %RH") []) =
      .ok {r68 with relative_humidity := some ((85 : ℚ) / 2)} ∧
    (∀ (r : EDS0065DATA) (txt : String), pyFloat? (firstToken txt).data = Option.none →
      sensorStep65 r (Elem.mk "PrimaryValue" (some txt) []) =
        .error (PyErr.valueError (firstToken txt))) ∧
    (∀ (r : EDS0068DATA) (txt : String), pyFloat? (firstToken txt).data = Option.none →
      sensorStep68 r (Elem.mk "PrimaryValue" (some txt) []) =
        .error (PyErr.valueError (firstToken txt))) := by
  have h0 : pyFloat? (firstToken "42.5 %RH").data =
      some ((((42 : ℕ) : ℚ)) + ((((5 : ℕ) : ℚ)) / ((10 : ℚ) ^ (1 : ℕ)))) := rfl
  have h1 : ((((42 : ℕ) : ℚ)) + ((((5 : ℕ) : ℚ)) / ((10 : ℚ) ^ (1 : ℕ)))) =
      (85 : ℚ) / 2 := by norm_num
  have hq : pyFloat? (firstToken "42.5 %RH").data = some ((85 : ℚ) / 2) := by
    rw [h0, h1]
  refine ⟨?_, ?_, ?_, ?_⟩
  · have hr : sensorStep65 r65 (Elem.mk "PrimaryValue" (some "42.5 %RH") []) =
        match pyFloat? (firstToken "42.5 %RH").data with
        | Option.none => Except.error (PyErr.valueError (firstToken "42.5 %RH"))
        | some q => Except.ok {r65 with relative_humidity := some q} := rfl
    rw [hr, hq]
  · have hr : sensorStep68 r68 (Elem.mk "PrimaryValue" (some "42.5 %RH") []) =
        match pyFloat? (firstToken "42.5 %RH").data with
        | Option.none => Except.error (PyErr.valueError (firstToken "42.5 %RH"))
        | some q => Except.ok {r68 with relative_humidity := some q} := rfl
    rw [hr, hq]
  · intro r txt h
    have hr : sensorStep65 r (Elem.mk "PrimaryValue" (some txt) []) =
        match pyFloat? (firstToken txt).data with
        | Option.none => Except.error (PyErr.valueError (firstToken txt))
        | some q => Except.ok {r with relative_humidity := some q} := rfl
    rw [hr, h]
  · intro r txt h
    have hr : sensorStep68 r (Elem.mk "PrimaryValue" (some txt) []) =
        match pyFloat? (firstToken txt).data with
        | Option.none => Except.error (PyErr.valueError (firstToken txt))
        | some q => Except.ok {r with relative_humidity := some q} := rfl
    rw [hr, h]

/-- Witness for C5 at a non-numeric leading token: the decode step raises
`ValueError "abc"`. -/
theorem c5_witness :
    sensorStep65 {} (Elem.mk "PrimaryValue" (some "abc %RH") []) =
      Except.error (PyErr.valueError (firstToken "abc %RH")) :=
  (c5_theorem {} {}).2.2.1 {} "abc %RH" (by decide)

/-- Counterexample to C6 as stated: invoked while disconnected, `_send_command`
does not raise anything (there is no `NotConnectedError` in the code): it
reports an error to the log and returns the value `False`, whatever the state
of the underlying transport. -/
theorem c6_counterexample :
    send_command false false = Except.ok false ∧
    send_command false true = Except.ok false := by
  exact ⟨rfl, rfl⟩

/-- C6 (amended).  While disconnected, `_send_command` reports an error and
returns `False` without raising; while connected, it returns `True` exactly
when `sendall` writes the entire buffer, and wraps any write failure as a
raised `IOError` (no partial-write success is reported). -/
theorem c6_theorem :
    (∀ f : Bool, send_command false f = Except.ok false) ∧
    send_command true false = Except.ok true ∧
    send_command true true = Except.error PyErr.ioError := by
  exact ⟨fun f => rfl, rfl, rfl⟩

/-- C7.  On a disconnected session with valid parameters, connecting to a
closed or unreachable port raises `DeviceConnectionError` and leaves the
connected flag false, and calling `disconnect()` reports a warning and returns
with the state unchanged, raising nothing. -/
theorem c7_theorem (s : Session) (host : String) (port : Int) (cf : Bool)
    (hconn : s.connected = false)
    (hv : validate_connection_params host port = true) :
    (connect s host port "tcp" NetOutcome.refused).1 = some PyErr.deviceConnectionError ∧
    (connect s host port "tcp" NetOutcome.refused).2.connected = false ∧
    disconnect s cf = (Option.none, s, true) := by
  refine ⟨?_, ?_, ?_⟩
  · simp [connect, hv]
  · simp [connect, hv, hconn]
  · simp [disconnect, hconn]

/-- Witness for C7 on a fresh session with the in-repo default host and port. -/
theorem c7_witness :
    (connect {} "hs1wireblue" 80 "tcp" NetOutcome.refused).1 =
      some PyErr.deviceConnectionError ∧
    (connect {} "hs1wireblue" 80 "tcp" NetOutcome.refused).2.connected = false ∧
    disconnect {} false = (Option.none, ({} : Session), true) :=
  c7_theorem {} "hs1wireblue" 80 false rfl (by decide)

/-- Helper: `__device_data_handler` leaves the state unchanged on a tag outside
its dispatch table. -/
theorem device_handler_skips (st : ONEWIREDATA) (e : Elem)
    (h : e.tag ∉ deviceTags) : device_data_handler st e = .ok st := by
  simp only [deviceTags, List.mem_cons, List.mem_singleton, not_or] at h
  obtain ⟨h1, h2, h3, h4, h5, h6, h7, h8, h9, h10, h11, h12, h13, h14, h15, h16, h17,
    h18, h19⟩ := h
  simp [device_data_handler, h1, h2, h3, h4, h5, h6, h7, h8, h9, h10, h11, h12, h13,
    h14, h15, h16, h17, h18, h19]

/-- Helper: the dispatch loop is unchanged by inserting an element it skips. -/
theorem runHandlers_skips (st : ONEWIREDATA) (l1 l2 : List Elem) (e : Elem)
    (h : e.tag ∉ deviceTags) :
    runHandlers st (l1 ++ e :: l2) = runHandlers st (l1 ++ l2) := by
  induction l1 generalizing st with
  | nil =>
    rw [List.nil_append, List.nil_append, runHandlers, device_handler_skips st e h]
  | cons a l ih =>
    rw [List.cons_append, List.cons_append, runHandlers, runHandlers]
    cases device_data_handler st a with
    | error er => rfl
    | ok st1 => exact ih st1

/-- Helper: the Family A child step leaves the record unchanged on a tag outside
the sensor dispatch table. -/
theorem sensorStep65_skips (r : EDS0065DATA) (e : Elem)
    (h : e.tag ∉ sensorTags) : sensorStep65 r e = .ok r := by
  simp only [sensorTags, List.mem_cons, List.mem_singleton, not_or] at h
  obtain ⟨h1, h2, h3, h4, h5, h6, h7, h8, h9, h10, h11, h12, h13, h14, h15⟩ := h
  simp [sensorStep65, h1, h2, h3, h4, h5, h6, h7, h8, h9, h10, h11, h12, h13, h14, h15]

/-- Helper: the Family B child step leaves the record unchanged on a tag outside
the sensor dispatch table. -/
theorem sensorStep68_skips (r : EDS0068DATA) (e : Elem)
    (h : e.tag ∉ sensorTags) : sensorStep68 r e = .ok r := by
  simp only [sensorTags, List.mem_cons, List.mem_singleton, not_or] at h
  obtain ⟨h1, h2, h3, h4, h5, h6, h7, h8, h9, h10, h11, h12, h13, h14, h15⟩ := h
  simp [sensorStep68, h1, h2, h3, h4, h5, h6, h7, h8, h9, h10, h11, h12, h13, h14, h15]

/-- Helper: the Family A child loop is unchanged by inserting a skipped tag. -/
theorem sensorFold65_skips (r : EDS0065DATA) (pre post : List Elem) (e : Elem)
    (h : e.tag ∉ sensorTags) :
    sensorFold65 r (pre ++ e :: post) = sensorFold65 r (pre ++ post) := by
  induction pre generalizing r with
  | nil =>
    rw [List.nil_append, List.nil_append, sensorFold65]
    rw [sensorStep65_skips r e h]
    rfl
  | cons a l ih =>
    rw [List.cons_append, List.cons_append, sensorFold65, sensorFold65]
    cases sensorStep65 r a with
    | error er => rfl
    | ok r1 => exact ih r1

/-- Helper: the Family B child loop is unchanged by inserting a skipped tag. -/
theorem sensorFold68_skips (r : EDS0068DATA) (pre post : List Elem) (e : Elem)
    (h : e.tag ∉ sensorTags) :
    sensorFold68 r (pre ++ e :: post) = sensorFold68 r (pre ++ post) := by
  induction pre generalizing r with
  | nil =>
    rw [List.nil_append, List.nil_append, sensorFold68]
    rw [sensorStep68_skips r e h]
    rfl
  | cons a l ih =>
    rw [List.cons_append, List.cons_append, sensorFold68, sensorFold68]
    cases sensorStep68 r a with
    | error er => rfl
    | ok r1 => exact ih r1

/-- C8.  A leaf element carrying a tag recognized neither by the top-level
dispatch nor by the sensor-block dispatch is silently ignored wherever it is
inserted: the document-order dispatch loop and both family child loops give
exactly the result they would give if the element were absent, so every
recognized field is populated as if the unrecognized tag were not there. -/
theorem c8_theorem (st : ONEWIREDATA) (l1 l2 : List Elem) (t : String)
    (x : Option String)
    (h1 : t ∉ deviceTags) (h2 : t ∉ sensorTags) :
    runHandlers st (l1 ++ Elem.mk t x [] :: l2) = runHandlers st (l1 ++ l2) ∧
    (∀ (r : EDS0065DATA) (pre post : List Elem),
      sensorFold65 r (pre ++ Elem.mk t x [] :: post) = sensorFold65 r (pre ++ post)) ∧
    (∀ (r : EDS0068DATA) (pre post : List Elem),
      sensorFold68 r (pre ++ Elem.mk t x [] :: post) = sensorFold68 r (pre ++ post)) := by
  refine ⟨runHandlers_skips st l1 l2 _ h1,
    fun r pre post => sensorFold65_skips r pre post _ h2,
    fun r pre post => sensorFold68_skips r pre post _ h2⟩

/-- Witness for C8: the spec's own `FutureField` example between two recognized
fields decodes exactly as if it were absent. -/
theorem c8_witness :
    runHandlers {} ([Elem.mk "PollCount" (some "7") []] ++
        Elem.mk "FutureField" (some "1") [] :: [Elem.mk "DeviceName" (some "OWS") []]) =
      runHandlers {} ([Elem.mk "PollCount" (some "7") []] ++
        [Elem.mk "DeviceName" (some "OWS") []]) ∧
    (∀ (r : EDS0065DATA) (pre post : List Elem),
      sensorFold65 r (pre ++ Elem.mk "FutureField" (some "1") [] :: post) =
        sensorFold65 r (pre ++ post)) ∧
    (∀ (r : EDS0068DATA) (pre post : List Elem),
      sensorFold68 r (pre ++ Elem.mk "FutureField" (some "1") [] :: post) =
        sensorFold68 r (pre ++ post)) :=
  c8_theorem {} [Elem.mk "PollCount" (some "7") []] [Elem.mk "DeviceName" (some "OWS") []]
    "FutureField" (some "1") (by decide) (by decide)

/-- Helper: dictionary access for the temperature field, Family A. -/
theorem asdict65_temperature (s : EDS0065DATA) :
    List.lookup "temperature" (asdict65 s) = some (pvFloat s.temperature) := rfl

/-- Helper: dictionary access for the temperature field, Family B. -/
theorem asdict68_temperature (s : EDS0068DATA) :
    List.lookup "temperature" (asdict68 s) = some (pvFloat s.temperature) := rfl

/-- Helper: dictionary access for the humidity field, Family A. -/
theorem asdict65_humidity (s : EDS0065DATA) :
    List.lookup "humidity" (asdict65 s) = some (pvFloat s.humidity) := rfl

/-- Helper: dictionary access for the humidity field, Family B. -/
theorem asdict68_humidity (s : EDS0068DATA) :
    List.lookup "humidity" (asdict68 s) = some (pvFloat s.humidity) := rfl

/-- Helper: dictionary access for the dew-point field, Family A. -/
theorem asdict65_dew_point (s : EDS0065DATA) :
    List.lookup "dew_point" (asdict65 s) = some (pvFloat s.dew_point) := rfl

/-- Helper: dictionary access for the dew-point field, Family B. -/
theorem asdict68_dew_point (s : EDS0068DATA) :
    List.lookup "dew_point" (asdict68 s) = some (pvFloat s.dew_point) := rfl

/-- C9.  For any item outside the allowed set (in particular the default empty
string), `get_atomic_value` returns `None` without polling the device; for each
allowed item it polls and returns the list of that field's value from every
decoded sensor record, all Family A records first and then all Family B
records, with a `None` entry for every sensor that did not report the field. -/
theorem c9_theorem (d : ONEWIREDATA) :
    (∀ item : String, item ∉ allowedItems →
      get_atomic_value item d = (Option.none, false)) ∧
    get_atomic_value "temperature" d =
      (some (d.eds0065_data.map (fun s => some (pvFloat s.temperature)) ++
        d.eds0068_data.map (fun s => some (pvFloat s.temperature))), true) ∧
    get_atomic_value "humidity" d =
      (some (d.eds0065_data.map (fun s => some (pvFloat s.humidity)) ++
        d.eds0068_data.map (fun s => some (pvFloat s.humidity))), true) ∧
    get_atomic_value "dew_point" d =
      (some (d.eds0065_data.map (fun s => some (pvFloat s.dew_point)) ++
        d.eds0068_data.map (fun s => some (pvFloat s.dew_point))), true) := by
  refine ⟨?_, ?_, ?_, ?_⟩
  · intro item h
    simp [get_atomic_value, h]
  · simp [get_atomic_value, allowedItems, read_sensors, List.map_append, List.map_map,
      Function.comp_def, asdict65_temperature, asdict68_temperature]
  · simp [get_atomic_value, allowedItems, read_sensors, List.map_append, List.map_map,
      Function.comp_def, asdict65_humidity, asdict68_humidity]
  · simp [get_atomic_value, allowedItems, read_sensors, List.map_append, List.map_map,
      Function.comp_def, asdict65_dew_point, asdict68_dew_point]

/-- Sample poll result for the C9 witness: one Family A record reporting 25
degrees and one empty Family B record. -/
def c9sample : ONEWIREDATA :=
  { eds0065_data := [{ temperature := some (25 : ℚ) }], eds0068_data := [{}] }

/-- Witness for C9: the default empty item returns `None` with no poll, and the
temperature item returns both values with a `None` entry for the sensor that
did not report one. -/
theorem c9_witness :
    get_atomic_value "" c9sample = (Option.none, false) ∧
    get_atomic_value "temperature" c9sample =
      (some [some (PyVal.vFloat 25), some PyVal.vNone], true) :=
  ⟨(c9_theorem c9sample).1 "" (by decide), (c9_theorem c9sample).2.1⟩

/-- Helper: the Family A temperature loop is a filterMap. -/
theorem temps65_eq (l : List EDS0065DATA) :
    temps65 l = l.filterMap (fun s => s.temperature.map (TempEntry.mk s.rom_id)) := by
  induction l with
  | nil => rfl
  | cons s rest ih => cases h : s.temperature <;> simp [temps65, h, ih, List.filterMap_cons]

/-- Helper: the Family B temperature loop is a filterMap. -/
theorem temps68_eq (l : List EDS0068DATA) :
    temps68 l = l.filterMap (fun s => s.temperature.map (TempEntry.mk s.rom_id)) := by
  induction l with
  | nil => rfl
  | cons s rest ih => cases h : s.temperature <;> simp [temps68, h, ih, List.filterMap_cons]

/-- Helper: the Family A humidity loop is a filterMap. -/
theorem hums65_eq (l : List EDS0065DATA) :
    hums65 l = l.filterMap (fun s => s.humidity.map (HumEntry.mk s.rom_id)) := by
  induction l with
  | nil => rfl
  | cons s rest ih => cases h : s.humidity <;> simp [hums65, h, ih, List.filterMap_cons]

/-- Helper: the Family B humidity loop is a filterMap. -/
theorem hums68_eq (l : List EDS0068DATA) :
    hums68 l = l.filterMap (fun s => s.humidity.map (HumEntry.mk s.rom_id)) := by
  induction l with
  | nil => rfl
  | cons s rest ih => cases h : s.humidity <;> simp [hums68, h, ih, List.filterMap_cons]

/-- C10.  `read_temperature` (and symmetrically `read_humidity`) yields one
`{rom_id, value}` entry for exactly those records whose field is present,
skipping `None` records, with every Family A entry before every Family B entry
and the within-family order that of the stored sequences: each family loop is
the filterMap of the stored list and the results are concatenated A-first. -/
theorem c10_theorem (d : ONEWIREDATA) :
    read_temperature d =
      d.eds0065_data.filterMap (fun s => s.temperature.map (TempEntry.mk s.rom_id)) ++
        d.eds0068_data.filterMap (fun s => s.temperature.map (TempEntry.mk s.rom_id)) ∧
    read_humidity d =
      d.eds0065_data.filterMap (fun s => s.humidity.map (HumEntry.mk s.rom_id)) ++
        d.eds0068_data.filterMap (fun s => s.humidity.map (HumEntry.mk s.rom_id)) := by
  exact ⟨by rw [read_temperature, temps65_eq, temps68_eq],
    by rw [read_humidity, hums65_eq, hums68_eq]⟩
